import Mathlib

/-!
Verification of the public-dashboards core of this Grafana excerpt.

The development shallowly embeds the relevant Go code:
  - the sqlstore bulk operation helpers (normalizeBulkSettings, inBatches),
  - the public-dashboard store row update (PublicDashboardStoreImpl.Update),
  - the public-dashboard service layer (query extraction, anonymous user
    construction, safe interval computation, annotation resolution, token
    generation).  The service layer source file is not part of the excerpt
    (only its tests are), so those definitions are modelled from the
    specification, with the in-repository tests used as additional
    constraints where they pin concrete behaviour.

Machine integers are modelled as Int (or Nat for inherently non-negative
quantities such as durations); fallible operations return Except or Option;
effectful calls (store lookups, the annotations repository, the random
generator) are passed in as explicit function parameters.
-/

/-! ## sqlstore bulk operations (src/unnamed/part_001) -/

/-- DefaultBatchSize from the sqlstore bulk-operations file. -/
def DefaultBatchSize : Int := 1000

/-- BulkOpSettings from the sqlstore bulk-operations file; BatchSize is a Go int. -/
structure BulkOpSettings where
  batchSize : Int
deriving Repr, DecidableEq

/-- normalizeBulkSettings replaces a zero batch size by DefaultBatchSize, as in the source. -/
def normalizeBulkSettings (s : BulkOpSettings) : BulkOpSettings :=
  if s.batchSize = 0 then { s with batchSize := DefaultBatchSize } else s

/-- inBatchesGo is the loop body of inBatches: it feeds consecutive slices
records[i:i+bs] to fn, stopping at the first error.  The callback is modelled
as a pure function returning some error or none.  The model agrees with the Go
loop for every batch size of at least one, which is the domain the claims
restrict to (a zero batch size is normalized away before the loop starts). -/
def inBatchesGo {α ε : Type} (fn : List α → Option ε) (bs : Nat) : List α → Option ε
  | [] => none
  | x :: xs =>
    match fn ((x :: xs).take bs) with
    | some e => some e
    | none => inBatchesGo fn bs (xs.drop (bs - 1))
termination_by l => l.length
decreasing_by
  simp only [List.length_drop, List.length_cons]
  omega

/-- inBatches from the sqlstore bulk-operations file: normalize the settings,
then process the records in batches. -/
def inBatches {α ε : Type} (records : List α) (opts : BulkOpSettings)
    (fn : List α → Option ε) : Option ε :=
  inBatchesGo fn (normalizeBulkSettings opts).batchSize.toNat records

/-- chunksOf is the specification-side description of the batching: the list of
consecutive slices of size bs (the last one possibly shorter). -/
def chunksOf {α : Type} (bs : Nat) : List α → List (List α)
  | [] => []
  | x :: xs => (x :: xs).take bs :: chunksOf bs (xs.drop (bs - 1))
termination_by l => l.length
decreasing_by
  simp only [List.length_drop, List.length_cons]
  omega

/-- firstError is the specification-side sequential processing: apply fn to the
batches in order and return the first error, or none when every call succeeds. -/
def firstError {α ε : Type} (fn : List α → Option ε) : List (List α) → Option ε
  | [] => none
  | c :: cs =>
    match fn c with
    | some e => some e
    | none => firstError fn cs

/-- effBatchSize is the batch size actually used by inBatches after normalization. -/
def effBatchSize (opts : BulkOpSettings) : Nat :=
  (normalizeBulkSettings opts).batchSize.toNat

lemma inBatchesGo_eq_firstError {α ε : Type} (fn : List α → Option ε) (bs : Nat) :
    ∀ n (l : List α), l.length ≤ n → inBatchesGo fn bs l = firstError fn (chunksOf bs l) := by
  intro n
  induction n with
  | zero =>
    intro l hl
    have : l = [] := List.length_eq_zero.mp (Nat.le_zero.mp hl)
    subst this
    simp [inBatchesGo, chunksOf, firstError]
  | succ n ih =>
    intro l hl
    cases l with
    | nil => simp [inBatchesGo, chunksOf, firstError]
    | cons x xs =>
      rw [inBatchesGo, chunksOf, firstError]
      cases fn ((x :: xs).take bs) with
      | some e => simp
      | none =>
        simp only
        apply ih
        simp only [List.length_drop]
        simp only [List.length_cons] at hl
        omega

lemma chunksOf_join {α : Type} (bs : Nat) (hbs : 1 ≤ bs) :
    ∀ n (l : List α), l.length ≤ n → (chunksOf bs l).flatten = l := by
  intro n
  induction n with
  | zero =>
    intro l hl
    have : l = [] := List.length_eq_zero.mp (Nat.le_zero.mp hl)
    subst this
    simp [chunksOf]
  | succ n ih =>
    intro l hl
    cases l with
    | nil => simp [chunksOf]
    | cons x xs =>
      rw [chunksOf]
      simp only [List.flatten_cons]
      have hdrop : (chunksOf bs (xs.drop (bs - 1))).flatten = xs.drop (bs - 1) := by
        apply ih
        simp only [List.length_drop]
        simp only [List.length_cons] at hl
        omega
      rw [hdrop]
      obtain ⟨k, rfl⟩ : ∃ k, bs = k + 1 := ⟨bs - 1, by omega⟩
      simp only [Nat.add_sub_cancel, List.take_succ_cons, List.cons_append, List.cons.injEq,
        true_and]
      exact List.take_append_drop k xs

lemma chunksOf_mem_bounds {α : Type} (bs : Nat) (hbs : 1 ≤ bs) :
    ∀ n (l : List α), l.length ≤ n → ∀ c ∈ chunksOf bs l, c.length ≤ bs ∧ c ≠ [] := by
  intro n
  induction n with
  | zero =>
    intro l hl
    have : l = [] := List.length_eq_zero.mp (Nat.le_zero.mp hl)
    subst this
    simp [chunksOf]
  | succ n ih =>
    intro l hl c hc
    cases l with
    | nil => simp [chunksOf] at hc
    | cons x xs =>
      rw [chunksOf] at hc
      rcases List.mem_cons.mp hc with hhead | htail
      · subst hhead
        constructor
        · exact List.length_take_le bs (x :: xs)
        · obtain ⟨k, rfl⟩ : ∃ k, bs = k + 1 := ⟨bs - 1, by omega⟩
          simp [List.take_cons]
      · apply ih (xs.drop (bs - 1)) _ c htail
        simp only [List.length_drop]
        simp only [List.length_cons] at hl
        omega

/-- Claim C10: for a records slice and settings whose batch size is positive or
zero (zero being normalized to the default 1000), inBatches applies fn to
consecutive non-overlapping batches of at most the effective batch size whose
concatenation is exactly the records list, returns the first error fn yields
without processing further batches, and for an empty records list performs no
call and returns none. -/
theorem inBatches_spec {α ε : Type} (records : List α) (opts : BulkOpSettings)
    (fn : List α → Option ε) (h : opts.batchSize = 0 ∨ 0 < opts.batchSize) :
    1 ≤ effBatchSize opts ∧
    (opts.batchSize = 0 → effBatchSize opts = 1000) ∧
    (0 < opts.batchSize → (effBatchSize opts : Int) = opts.batchSize) ∧
    inBatches records opts fn = firstError fn (chunksOf (effBatchSize opts) records) ∧
    (chunksOf (effBatchSize opts) records).flatten = records ∧
    (∀ c ∈ chunksOf (effBatchSize opts) records, c.length ≤ effBatchSize opts ∧ c ≠ []) ∧
    inBatches ([] : List α) opts fn = none := by
  have hbs : 1 ≤ effBatchSize opts := by
    rcases h with h0 | hpos
    · simp [effBatchSize, normalizeBulkSettings, h0, DefaultBatchSize]
    · have hne : opts.batchSize ≠ 0 := by omega
      simp only [effBatchSize, normalizeBulkSettings, if_neg hne]
      omega
  refine ⟨hbs, ?_, ?_, ?_, ?_, ?_, ?_⟩
  · intro h0
    simp [effBatchSize, normalizeBulkSettings, h0, DefaultBatchSize]
  · intro hpos
    have hne : opts.batchSize ≠ 0 := by omega
    simp only [effBatchSize, normalizeBulkSettings, if_neg hne]
    omega
  · exact inBatchesGo_eq_firstError fn (effBatchSize opts) records.length records le_rfl
  · exact chunksOf_join (effBatchSize opts) hbs records.length records le_rfl
  · exact chunksOf_mem_bounds (effBatchSize opts) hbs records.length records le_rfl
  · simp [inBatches, inBatchesGo]

/-- Witness for claim C10 at a concrete input: three records, batch size two,
a callback that always succeeds. -/
theorem inBatches_spec_witness :
    inBatches ([1, 2, 3] : List Nat) ⟨2⟩ (fun _ => (none : Option Unit)) =
      firstError (fun _ => (none : Option Unit)) (chunksOf (effBatchSize ⟨2⟩) [1, 2, 3]) ∧
    (chunksOf (effBatchSize ⟨2⟩) ([1, 2, 3] : List Nat)).flatten = [1, 2, 3] :=
  ⟨(inBatches_spec [1, 2, 3] ⟨2⟩ (fun _ => (none : Option Unit)) (by decide)).2.2.2.1,
   (inBatches_spec [1, 2, 3] ⟨2⟩ (fun _ => (none : Option Unit)) (by decide)).2.2.2.2.1⟩

/-! ## Public dashboard records and the store row update
(src/pkg/services/publicdashboards/database/database.go) -/

/-- TimeSettings is the pair of relative-or-absolute time expressions persisted
with a public dashboard. -/
structure TimeSettings where
  tsFrom : String
  tsTo : String
deriving Repr, DecidableEq

/-- PublicDashboard is the persisted public-dashboard configuration record.
Timestamps are modelled as Int (unix milliseconds). -/
structure PublicDashboard where
  uid : String
  dashboardUid : String
  orgId : Int
  accessToken : String
  isEnabled : Bool
  annotationsEnabled : Bool
  timeSettings : TimeSettings
  createdBy : Int
  createdAt : Int
  updatedBy : Int
  updatedAt : Int
deriving Repr, DecidableEq

/-- publicDashboardStoreUpdateRow embeds the UPDATE statement of
PublicDashboardStoreImpl.Update: the SET list is exactly is_enabled,
annotations_enabled, time_settings, updated_by, updated_at, and the WHERE
clause matches the row uid against the command uid. -/
def publicDashboardStoreUpdateRow (cmd row : PublicDashboard) : PublicDashboard :=
  if row.uid = cmd.uid then
    { row with
      isEnabled := cmd.isEnabled
      annotationsEnabled := cmd.annotationsEnabled
      timeSettings := cmd.timeSettings
      updatedBy := cmd.updatedBy
      updatedAt := cmd.updatedAt }
  else row

/-- Claim C7: the store update mutates only is_enabled, annotations_enabled,
time_settings, updated_by and updated_at on the matched row; the identity
fields dashboard_uid, org_id, created_by, created_at and access_token (and the
row uid itself) keep their stored values regardless of what the update command
supplies for them, and unmatched rows are untouched. -/
theorem publicDashboardStoreUpdateRow_frame (cmd row : PublicDashboard) :
    ((publicDashboardStoreUpdateRow cmd row).uid = row.uid ∧
     (publicDashboardStoreUpdateRow cmd row).dashboardUid = row.dashboardUid ∧
     (publicDashboardStoreUpdateRow cmd row).orgId = row.orgId ∧
     (publicDashboardStoreUpdateRow cmd row).createdBy = row.createdBy ∧
     (publicDashboardStoreUpdateRow cmd row).createdAt = row.createdAt ∧
     (publicDashboardStoreUpdateRow cmd row).accessToken = row.accessToken) ∧
    (row.uid = cmd.uid →
      (publicDashboardStoreUpdateRow cmd row).isEnabled = cmd.isEnabled ∧
      (publicDashboardStoreUpdateRow cmd row).annotationsEnabled = cmd.annotationsEnabled ∧
      (publicDashboardStoreUpdateRow cmd row).timeSettings = cmd.timeSettings ∧
      (publicDashboardStoreUpdateRow cmd row).updatedBy = cmd.updatedBy ∧
      (publicDashboardStoreUpdateRow cmd row).updatedAt = cmd.updatedAt) ∧
    (row.uid ≠ cmd.uid → publicDashboardStoreUpdateRow cmd row = row) := by
  unfold publicDashboardStoreUpdateRow
  by_cases h : row.uid = cmd.uid <;> simp [h]

/-- Witness for claim C7 at a concrete stored row and update command that
attempts to overwrite every identity field. -/
theorem publicDashboardStoreUpdateRow_frame_witness :
    (publicDashboardStoreUpdateRow
      ⟨"pd1", "abc1234", 9, "NOTAREALUUID", true, true, ⟨"now-12h", "now"⟩, 9, 0, 8, 77⟩
      ⟨"pd1", "dash1", 1, "token1", false, false, ⟨"now-6h", "now"⟩, 7, 11, 7, 11⟩).accessToken
      = "token1" ∧
    (publicDashboardStoreUpdateRow
      ⟨"pd1", "abc1234", 9, "NOTAREALUUID", true, true, ⟨"now-12h", "now"⟩, 9, 0, 8, 77⟩
      ⟨"pd1", "dash1", 1, "token1", false, false, ⟨"now-6h", "now"⟩, 7, 11, 7, 11⟩).isEnabled
      = true :=
  ⟨((publicDashboardStoreUpdateRow_frame
      ⟨"pd1", "abc1234", 9, "NOTAREALUUID", true, true, ⟨"now-12h", "now"⟩, 9, 0, 8, 77⟩
      ⟨"pd1", "dash1", 1, "token1", false, false, ⟨"now-6h", "now"⟩, 7, 11, 7, 11⟩).1).2.2.2.2.2,
   (((publicDashboardStoreUpdateRow_frame
      ⟨"pd1", "abc1234", 9, "NOTAREALUUID", true, true, ⟨"now-12h", "now"⟩, 9, 0, 8, 77⟩
      ⟨"pd1", "dash1", 1, "token1", false, false, ⟨"now-6h", "now"⟩, 7, 11, 7, 11⟩).2).1 rfl).1⟩

/-! ## Dashboard documents and query extraction

The service implementation (query extraction, uid collection, anonymous user,
safe interval, lookup by access token, token generation, annotation
resolution) is not part of the excerpt; only its tests are.  Those
definitions are modelled from the specification, and where the in-repository
tests pin concrete behaviour the model is checked against them. -/

/-- DataSourceRef is a datasource reference inside a dashboard document:
either a bare string (legacy schema) or an object with optional type and uid. -/
inductive DataSourceRef
  | str (s : String)
  | obj (dsType uid : Option String)
deriving Repr, DecidableEq

/-- Target is one query definition inside a panel.  Optional JSON fields are
modelled as Option (none meaning the key is absent). -/
structure Target where
  datasource : Option DataSourceRef
  hide : Option Bool
  exemplar : Option Bool
  refId : String
deriving Repr, DecidableEq

/-- Panel is a dashboard panel: an identifier, an optional panel-level
datasource reference and a list of query definitions. -/
structure Panel where
  id : Int
  datasource : Option DataSourceRef
  targets : List Target
deriving Repr, DecidableEq

/-- Dashboard is the dashboard document restricted to the fields this core
reads: the owning organization and the panels collection (a document without
a panels key is modelled by an empty list). -/
structure Dashboard where
  orgId : Int
  panels : List Panel
deriving Repr, DecidableEq

/-- isHidden reads the hide field the way the Go code does (MustBool): an
absent field counts as false, a boolean field is taken as is. -/
def isHidden (t : Target) : Bool :=
  match t.hide with
  | some b => b
  | none => false

/-- Modelled from the spec: a query definition that lacks its own datasource
reference inherits the panel-level one; a bare-string panel reference (legacy
schema) is synthesized into an object with type public-ds and the string as
uid. -/
def inheritDatasource : Option DataSourceRef → Option DataSourceRef
  | some (DataSourceRef.str s) => some (DataSourceRef.obj (some "public-ds") (some s))
  | other => other

/-- Modelled from the spec: normalization of one query definition; the
exemplar field is stripped, and a missing datasource reference is inherited
from the panel. -/
def normalizeTarget (panelDs : Option DataSourceRef) (t : Target) : Target :=
  match t.datasource with
  | some _ => { t with exemplar := none }
  | none => { t with exemplar := none, datasource := inheritDatasource panelDs }

/-- Modelled from the spec: the ordered non-hidden, normalized query list of
one panel. -/
def panelQueries (p : Panel) : List Target :=
  (p.targets.filter (fun t => !(isHidden t))).map (normalizeTarget p.datasource)

/-- Modelled from the spec: groupQueriesByPanelId maps every panel identifier
to its ordered non-hidden query list. -/
def groupQueriesByPanelId (d : Dashboard) : List (Int × List Target) :=
  d.panels.map (fun p => (p.id, panelQueries p))

lemma normalizeTarget_hide (panelDs : Option DataSourceRef) (t : Target) :
    (normalizeTarget panelDs t).hide = t.hide := by
  unfold normalizeTarget
  cases t.datasource <;> rfl

lemma isHidden_false_iff (t : Target) : isHidden t = false ↔ ¬ t.hide = some true := by
  unfold isHidden
  cases h : t.hide with
  | none => simp
  | some b => cases b <;> simp

/-- Claim C3: query extraction never includes a query whose hide field is
boolean true, and a panel all of whose targets are hidden is still present in
the result with an empty query list for its panel id. -/
theorem groupQueriesByPanelId_spec (d : Dashboard) :
    (∀ pe ∈ groupQueriesByPanelId d, ∀ q ∈ pe.2, ¬ q.hide = some true) ∧
    (∀ p ∈ d.panels, (p.id, panelQueries p) ∈ groupQueriesByPanelId d ∧
      ((∀ t ∈ p.targets, t.hide = some true) → panelQueries p = [])) := by
  constructor
  · intro pe hpe q hq
    obtain ⟨p, _, rfl⟩ := List.mem_map.mp hpe
    obtain ⟨t, htf, rfl⟩ := List.mem_map.mp hq
    obtain ⟨_, hnh⟩ := List.mem_filter.mp htf
    rw [normalizeTarget_hide]
    exact (isHidden_false_iff t).mp (by simpa using hnh)
  · intro p hp
    refine ⟨List.mem_map_of_mem _ hp, fun hall => ?_⟩
    unfold panelQueries
    have : p.targets.filter (fun t => !(isHidden t)) = [] := by
      rw [List.filter_eq_nil_iff]
      intro t ht
      have := hall t ht
      simp [isHidden, this]
    rw [this]
    rfl

/-- allHiddenPanel mirrors the panel of the test fixture whose two queries are
both hidden. -/
def allHiddenPanel : Panel :=
  { id := 2
    datasource := none
    targets := [
      { datasource := some (DataSourceRef.obj (some "prometheus") (some "_yxMP8Ynk"))
        hide := some true, exemplar := some true, refId := "A" },
      { datasource := some (DataSourceRef.obj (some "prometheus") (some "promds2"))
        hide := some true, exemplar := some true, refId := "B" }] }

/-- allHiddenDashboard is the dashboard holding allHiddenPanel. -/
def allHiddenDashboard : Dashboard := { orgId := 1, panels := [allHiddenPanel] }

/-- Witness for claim C3: on the all-hidden fixture the panel id is still a key
of the result and its query list is empty. -/
theorem groupQueriesByPanelId_spec_witness :
    (allHiddenPanel.id, panelQueries allHiddenPanel) ∈ groupQueriesByPanelId allHiddenDashboard ∧
    panelQueries allHiddenPanel = [] :=
  ⟨((groupQueriesByPanelId_spec allHiddenDashboard).2 allHiddenPanel (by decide)).1,
   ((groupQueriesByPanelId_spec allHiddenDashboard).2 allHiddenPanel (by decide)).2 (by decide)⟩

/-- Claim C9: during extraction a query definition without its own datasource
reference inherits the panel-level reference; a bare-string panel reference s
is synthesized into an object with type public-ds and uid s, while an object
reference is inherited unchanged. -/
theorem normalizeTarget_inherits (d : Dashboard) (p : Panel) (t : Target)
    (hp : p ∈ d.panels) (ht : t ∈ p.targets) (hhide : isHidden t = false)
    (hds : t.datasource = none) :
    (p.id, panelQueries p) ∈ groupQueriesByPanelId d ∧
    normalizeTarget p.datasource t ∈ panelQueries p ∧
    (∀ s, p.datasource = some (DataSourceRef.str s) →
      (normalizeTarget p.datasource t).datasource =
        some (DataSourceRef.obj (some "public-ds") (some s))) ∧
    (∀ ty u, p.datasource = some (DataSourceRef.obj ty u) →
      (normalizeTarget p.datasource t).datasource = some (DataSourceRef.obj ty u)) := by
  refine ⟨List.mem_map_of_mem _ hp, ?_, ?_, ?_⟩
  · exact List.mem_map_of_mem _ (List.mem_filter.mpr ⟨ht, by simp [hhide]⟩)
  · intro s hs
    unfold normalizeTarget
    rw [hds, hs]
    rfl
  · intro ty u hobj
    unfold normalizeTarget
    rw [hds, hobj]
    rfl

/-- oldStylePanel mirrors the oldStyleDashboard fixture: a legacy bare-string
panel datasource and one target without its own datasource. -/
def oldStylePanel : Panel :=
  { id := 2
    datasource := some (DataSourceRef.str "_yxMP8Ynk")
    targets := [{ datasource := none, hide := none, exemplar := some true, refId := "A" }] }

/-- oldStyleDashboard is the dashboard holding oldStylePanel. -/
def oldStyleDashboard : Dashboard := { orgId := 1, panels := [oldStylePanel] }

/-- Witness for claim C9: on the legacy fixture the inherited reference is the
synthesized public-ds object carrying the original identifier. -/
theorem normalizeTarget_inherits_witness :
    (normalizeTarget oldStylePanel.datasource
        { datasource := none, hide := none, exemplar := some true, refId := "A" }).datasource =
      some (DataSourceRef.obj (some "public-ds") (some "_yxMP8Ynk")) :=
  (normalizeTarget_inherits oldStyleDashboard oldStylePanel
      { datasource := none, hide := none, exemplar := some true, refId := "A" }
      (by decide) (by decide) (by decide) rfl).2.2.1 "_yxMP8Ynk" rfl

/-! ## Unique datasource uid collection and the anonymous user -/

/-- dsUidOf extracts the uid carried by a datasource reference, the way the Go
helper getDataSourceUidFromJson does: a bare string is its own uid, an object
yields its uid field, anything else yields the empty string. -/
def dsUidOf : Option DataSourceRef → String
  | some (DataSourceRef.str s) => s
  | some (DataSourceRef.obj _ (some u)) => u
  | some (DataSourceRef.obj _ none) => ""
  | none => ""

/-- insertUnique appends an element unless it is already present, preserving
first-occurrence order. -/
def insertUnique (acc : List String) (u : String) : List String :=
  if u ∈ acc then acc else acc ++ [u]

/-- panelReferencedUids lists the datasource uids one panel contributes: its
panel-level uid, or, for the mixed datasource, the uid of every target. -/
def panelReferencedUids (p : Panel) : List String :=
  if dsUidOf p.datasource = "-- Mixed --" then p.targets.map (fun t => dsUidOf t.datasource)
  else [dsUidOf p.datasource]

/-- dashboardReferencedUids is the stream of datasource uids referenced by the
panels of a dashboard, in traversal order and with duplicates. -/
def dashboardReferencedUids (d : Dashboard) : List String :=
  (d.panels.map panelReferencedUids).flatten

/-- Modelled from the spec: getUniqueDashboardDatasourceUids collects the
unique datasource uids referenced by the panels and targets of a dashboard.
The spec asks for ascending sorted output, but the in-repository test
TestGetUniqueDashboardDatasourceUids pins first-occurrence order (it expects
abc123 before _yxMP8Ynk, which is not ascending), so the model deduplicates
preserving first-occurrence order as the tests require. -/
def getUniqueDashboardDatasourceUids (d : Dashboard) : List String :=
  (dashboardReferencedUids d).foldl insertUnique []

lemma insertUnique_nodup (acc : List String) (u : String) (h : acc.Nodup) :
    (insertUnique acc u).Nodup := by
  unfold insertUnique
  split
  · exact h
  · next hnot =>
    exact List.Nodup.append h (List.nodup_singleton u) (by simpa using hnot)

lemma foldl_insertUnique_nodup (l : List String) :
    ∀ acc, acc.Nodup → (l.foldl insertUnique acc).Nodup := by
  induction l with
  | nil => intro acc h; simpa using h
  | cons x xs ih =>
    intro acc h
    simp only [List.foldl_cons]
    exact ih _ (insertUnique_nodup acc x h)

lemma mem_insertUnique (acc : List String) (u v : String) :
    v ∈ insertUnique acc u ↔ v ∈ acc ∨ v = u := by
  unfold insertUnique
  split
  · next hin =>
    constructor
    · exact fun hv => Or.inl hv
    · rintro (hv | rfl)
      · exact hv
      · exact hin
  · simp [List.mem_append]

lemma mem_foldl_insertUnique (l : List String) :
    ∀ acc v, v ∈ l.foldl insertUnique acc ↔ v ∈ acc ∨ v ∈ l := by
  induction l with
  | nil => simp
  | cons x xs ih =>
    intro acc v
    simp only [List.foldl_cons, List.mem_cons]
    rw [ih, mem_insertUnique]
    tauto

/-- firstOccurDedup is the specification-side first-occurrence
deduplication: it keeps the first occurrence of every element and drops the
later ones, so its output order is the order of first occurrence in the
input. -/
def firstOccurDedup : List String → List String
  | [] => []
  | x :: xs => x :: firstOccurDedup (xs.filter (fun y => decide (¬ y = x)))
termination_by l => l.length
decreasing_by
  have := List.length_filter_le (fun y => decide (¬ y = x)) xs
  simp only [List.length_cons]
  omega

lemma foldl_insertUnique_eq_firstOccurDedup (l : List String) :
    ∀ acc : List String,
      l.foldl insertUnique acc =
        acc ++ firstOccurDedup (l.filter (fun y => decide (¬ y ∈ acc))) := by
  induction l with
  | nil =>
    intro acc
    simp [firstOccurDedup]
  | cons x xs ih =>
    intro acc
    simp only [List.foldl_cons]
    by_cases hx : x ∈ acc
    · have h1 : insertUnique acc x = acc := by simp [insertUnique, hx]
      have h2 : (x :: xs).filter (fun y => decide (¬ y ∈ acc)) =
          xs.filter (fun y => decide (¬ y ∈ acc)) := by
        simp [List.filter_cons, hx]
      rw [h1, h2, ih acc]
    · have h1 : insertUnique acc x = acc ++ [x] := by simp [insertUnique, hx]
      have h2 : (x :: xs).filter (fun y => decide (¬ y ∈ acc)) =
          x :: xs.filter (fun y => decide (¬ y ∈ acc)) := by
        simp [List.filter_cons, hx]
      rw [h1, h2, ih (acc ++ [x]), firstOccurDedup]
      have h3 : (xs.filter (fun y => decide (¬ y ∈ acc))).filter
            (fun y => decide (¬ y = x)) =
          xs.filter (fun y => decide (¬ y ∈ acc ++ [x])) := by
        rw [List.filter_filter]
        apply List.filter_congr
        intro y hy
        rcases Decidable.em (y ∈ acc) with hyin | hyin <;>
          rcases Decidable.em (y = x) with hyx | hyx <;>
            simp [hyin, hyx, List.mem_append]
      rw [h3]
      simp [List.append_assoc]

lemma mem_getUniqueDashboardDatasourceUids (d : Dashboard) (u : String) :
    u ∈ getUniqueDashboardDatasourceUids d ↔ u ∈ dashboardReferencedUids d := by
  unfold getUniqueDashboardDatasourceUids
  rw [mem_foldl_insertUnique]
  simp

/-- Counterexample for claim C5: on the duplicate-datasource fixture the
collected uid list is abc123 then _yxMP8Ynk, which is not in ascending order,
exactly as the in-repository test expects. -/
theorem getUniqueDashboardDatasourceUids_not_sorted :
    getUniqueDashboardDatasourceUids
      { orgId := 1
        panels := [
          { id := 1, datasource := some (DataSourceRef.obj (some "prometheus") (some "abc123"))
            targets := [] },
          { id := 2, datasource := some (DataSourceRef.obj (some "prometheus") (some "_yxMP8Ynk"))
            targets := [] },
          { id := 3, datasource := some (DataSourceRef.obj (some "prometheus") (some "_yxMP8Ynk"))
            targets := [] }] } = ["abc123", "_yxMP8Ynk"] ∧
    ¬ List.Sorted (fun a b : String => a ≤ b) ["abc123", "_yxMP8Ynk"] := by
  constructor
  · rfl
  · intro hsorted
    have hle : ("abc123" : String) ≤ "_yxMP8Ynk" :=
      (List.sorted_cons.mp hsorted).1 _ (by simp)
    have hlt : ("_yxMP8Ynk" : String) < "abc123" := by
      rw [String.lt_iff_toList_lt]
      decide
    exact absurd hlt (not_lt.mpr hle)

/-- Claim C5 (amended): the collected uid list contains each referenced
datasource uid exactly once and equals the first-occurrence deduplication of
the referenced uid stream, so its order is the first-occurrence order of the
panel traversal rather than ascending sorted order. -/
theorem getUniqueDashboardDatasourceUids_unique (d : Dashboard) :
    (getUniqueDashboardDatasourceUids d).Nodup ∧
    getUniqueDashboardDatasourceUids d = firstOccurDedup (dashboardReferencedUids d) ∧
    (∀ u, u ∈ getUniqueDashboardDatasourceUids d ↔ u ∈ dashboardReferencedUids d) := by
  refine ⟨foldl_insertUnique_nodup _ _ List.nodup_nil, ?_,
    fun u => mem_getUniqueDashboardDatasourceUids d u⟩
  unfold getUniqueDashboardDatasourceUids
  rw [foldl_insertUnique_eq_firstOccurDedup]
  have hfil : (dashboardReferencedUids d).filter
      (fun y => decide (¬ y ∈ ([] : List String))) = dashboardReferencedUids d := by
    apply List.filter_eq_self.mpr
    intro a ha
    simp
  rw [hfil]
  simp

/-! ## Anonymous execution context (claim C1) -/

/-- SignedInUser is the anonymous execution context: an organization and a map
from organization id to a map from action name to scope list, modelled as
association lists. -/
structure SignedInUser where
  orgID : Int
  permissions : List (Int × List (String × List String))
deriving Repr, DecidableEq

/-- datasourceScopes turns each collected datasource uid into its access
control scope string. -/
def datasourceScopes (d : Dashboard) : List String :=
  (getUniqueDashboardDatasourceUids d).map (fun u => "datasources:uid:" ++ u)

/-- Modelled from the spec: buildAnonymousUser grants, for the organization of
the dashboard, the datasource query and read actions scoped to exactly the
collected uids, a dashboard read permission scoped to all dashboards, and an
annotation read permission scoped to dashboard-type annotations. -/
def buildAnonymousUser (d : Dashboard) : SignedInUser :=
  { orgID := d.orgId
    permissions := [(d.orgId,
      [("datasources:query", datasourceScopes d),
       ("datasources:read", datasourceScopes d),
       ("dashboards:read", ["dashboards:*"]),
       ("annotations:read", ["annotations:type:dashboard"])])] }

/-- strEndsWith decides whether suf is a suffix of s, over the character
lists of the strings. -/
def strEndsWith (s suf : String) : Bool :=
  suf.toList.isSuffixOf s.toList

/-- isWriteCapableAction marks any action that is not a read-class action
(read or query verbs). -/
def isWriteCapableAction (a : String) : Bool :=
  !(strEndsWith a ":read" || strEndsWith a ":query")

/-- Claim C1: the anonymous user carries, for the organization of the
dashboard, exactly the two datasource actions query and read scoped to exactly
the referenced datasource uids, a dashboard read grant on all dashboards and a
dashboard-type annotation read grant; every granted action is read-class and
every datasource scope comes from a uid the dashboard references. -/
theorem buildAnonymousUser_minimal (d : Dashboard) :
    (buildAnonymousUser d).orgID = d.orgId ∧
    (buildAnonymousUser d).permissions = [(d.orgId,
      [("datasources:query", datasourceScopes d),
       ("datasources:read", datasourceScopes d),
       ("dashboards:read", ["dashboards:*"]),
       ("annotations:read", ["annotations:type:dashboard"])])] ∧
    (∀ s, s ∈ datasourceScopes d ↔
      ∃ u, u ∈ dashboardReferencedUids d ∧ s = "datasources:uid:" ++ u) ∧
    (∀ org grants, (org, grants) ∈ (buildAnonymousUser d).permissions →
      org = d.orgId ∧ ∀ a scopes, (a, scopes) ∈ grants → isWriteCapableAction a = false) := by
  refine ⟨rfl, rfl, ?_, ?_⟩
  · intro s
    unfold datasourceScopes
    rw [List.mem_map]
    constructor
    · rintro ⟨u, hu, rfl⟩
      exact ⟨u, (mem_getUniqueDashboardDatasourceUids d u).mp hu, rfl⟩
    · rintro ⟨u, hu, rfl⟩
      exact ⟨u, (mem_getUniqueDashboardDatasourceUids d u).mpr hu, rfl⟩
  · intro org grants hmem
    simp only [buildAnonymousUser, List.mem_singleton, Prod.mk.injEq] at hmem
    obtain ⟨rfl, rfl⟩ := hmem
    refine ⟨rfl, ?_⟩
    intro a scopes ha
    simp only [List.mem_cons, List.not_mem_nil, or_false, Prod.mk.injEq] at ha
    rcases ha with ⟨rfl, _⟩ | ⟨rfl, _⟩ | ⟨rfl, _⟩ | ⟨rfl, _⟩ <;> decide

/-- sampleDashboard mirrors the default dashboard of insertTestDashboard: two
panels referencing datasources ds1, ds2 and ds3. -/
def sampleDashboard : Dashboard :=
  { orgId := 1
    panels := [
      { id := 1, datasource := some (DataSourceRef.obj none (some "ds1"))
        targets := [
          { datasource := some (DataSourceRef.obj (some "mysql") (some "ds1"))
            hide := none, exemplar := none, refId := "A" },
          { datasource := some (DataSourceRef.obj (some "prometheus") (some "ds2"))
            hide := none, exemplar := none, refId := "B" }] },
      { id := 2, datasource := some (DataSourceRef.obj none (some "ds3"))
        targets := [
          { datasource := some (DataSourceRef.obj (some "mysql") (some "ds3"))
            hide := none, exemplar := none, refId := "C" }] }] }

/-- Witness for claim C1: on the sample dashboard the datasource scope
characterization holds for a concrete scope and the datasource query action is
not write-capable. -/
theorem buildAnonymousUser_minimal_witness :
    ("datasources:uid:ds1" ∈ datasourceScopes sampleDashboard ↔
      ∃ u, u ∈ dashboardReferencedUids sampleDashboard ∧
        "datasources:uid:ds1" = "datasources:uid:" ++ u) ∧
    isWriteCapableAction "datasources:query" = false :=
  ⟨(buildAnonymousUser_minimal sampleDashboard).2.2.1 "datasources:uid:ds1",
   ((buildAnonymousUser_minimal sampleDashboard).2.2.2 sampleDashboard.orgId
      [("datasources:query", datasourceScopes sampleDashboard),
       ("datasources:read", datasourceScopes sampleDashboard),
       ("dashboards:read", ["dashboards:*"]),
       ("annotations:read", ["annotations:type:dashboard"])]
      (by simp [buildAnonymousUser])).2
     "datasources:query" (datasourceScopes sampleDashboard) (by simp)⟩

/-! ## Safe interval and max data points (claim C4) -/

/-- safeResolution is the fixed ceiling of 11000 points enforced on public
dashboard queries. -/
def safeResolution : Int := 11000

/-- minIntervalMs is the ceiling of the range duration divided by the
resolution: the smallest interval that keeps the point count within the
ceiling.  A negative duration is clamped at zero. -/
def minIntervalMs (durationMs : Int) : Int :=
  (((durationMs.toNat + 10999) / 11000 : Nat) : Int)

/-- Modelled from the spec: getSafeIntervalAndMaxDataPoints keeps the
requested interval and max data points when the requested interval already
respects the minimum safe interval, and otherwise returns the clamped safe
pair.  The time range is passed as its resolved duration in milliseconds. -/
def getSafeIntervalAndMaxDataPoints (intervalMs maxDataPoints durationMs : Int) : Int × Int :=
  if minIntervalMs durationMs > intervalMs then (minIntervalMs durationMs, safeResolution)
  else (intervalMs, maxDataPoints)

/-- Claim C4: the safe interval is the maximum of the requested interval and
the ceiling of duration over 11000; the max data points is 11000 exactly when
clamping occurred and the requested value otherwise; a non-positive requested
interval always yields the clamped safe pair; and the output never permits
more than 11000 points. -/
theorem getSafeIntervalAndMaxDataPoints_spec (intervalMs maxDataPoints durationMs : Int)
    (hdur : 0 ≤ durationMs) :
    (getSafeIntervalAndMaxDataPoints intervalMs maxDataPoints durationMs).1 =
      max intervalMs (minIntervalMs durationMs) ∧
    (minIntervalMs durationMs > intervalMs →
      getSafeIntervalAndMaxDataPoints intervalMs maxDataPoints durationMs =
        (minIntervalMs durationMs, 11000)) ∧
    (minIntervalMs durationMs ≤ intervalMs →
      getSafeIntervalAndMaxDataPoints intervalMs maxDataPoints durationMs =
        (intervalMs, maxDataPoints)) ∧
    (intervalMs ≤ 0 → 0 < durationMs →
      getSafeIntervalAndMaxDataPoints intervalMs maxDataPoints durationMs =
        (minIntervalMs durationMs, 11000)) ∧
    durationMs ≤
      safeResolution * (getSafeIntervalAndMaxDataPoints intervalMs maxDataPoints durationMs).1 := by
  have hminmul : durationMs ≤ 11000 * minIntervalMs durationMs := by
    unfold minIntervalMs
    omega
  have hminpos : 0 < durationMs → 1 ≤ minIntervalMs durationMs := by
    unfold minIntervalMs
    omega
  refine ⟨?_, ?_, ?_, ?_, ?_⟩
  · by_cases h : minIntervalMs durationMs > intervalMs <;>
      simp only [getSafeIntervalAndMaxDataPoints, if_pos, if_neg, h, if_true, if_false] <;>
      omega
  · intro h
    simp [getSafeIntervalAndMaxDataPoints, h, safeResolution]
  · intro h
    have hnot : ¬ minIntervalMs durationMs > intervalMs := by omega
    simp [getSafeIntervalAndMaxDataPoints, hnot]
  · intro hneg hpos
    have h : minIntervalMs durationMs > intervalMs := by
      have := hminpos hpos
      omega
    simp [getSafeIntervalAndMaxDataPoints, h, safeResolution]
  · by_cases h : minIntervalMs durationMs > intervalMs <;>
      simp only [getSafeIntervalAndMaxDataPoints, h, if_true, if_false, safeResolution] <;>
      omega

/-- Witness for claim C4 at the six-hour range of the repository test: a
requested interval of 1000ms across 21600000ms clamps to the safe pair. -/
theorem getSafeIntervalAndMaxDataPoints_spec_witness :
    getSafeIntervalAndMaxDataPoints 1000 300 21600000 = (1964, 11000) ∧
    (21600000 : Int) ≤
      safeResolution * (getSafeIntervalAndMaxDataPoints 1000 300 21600000).1 :=
  ⟨((getSafeIntervalAndMaxDataPoints_spec 1000 300 21600000 (by decide)).2.1
      (by decide)).trans (by decide),
   (getSafeIntervalAndMaxDataPoints_spec 1000 300 21600000 (by decide)).2.2.2.2⟩

/-! ## Public dashboard lookup by access token (claim C2) -/

/-- PublicDashboardError is the externally visible error of the lookup path;
a missing record, a disabled record and a missing backing dashboard all
surface as the not-found value. -/
inductive PublicDashboardError
  | notFound
deriving Repr, DecidableEq

/-- Modelled from the spec: FindPublicDashboardAndDashboardByAccessToken with
the two store lookups passed in as their results: the public-dashboard record
resolved for the access token (none when absent) and the dashboard resolved
for its dashboard uid (none when absent). -/
def findPublicDashboardAndDashboardByAccessToken
    (storePd : Option PublicDashboard) (storeDash : Option Dashboard) :
    Except PublicDashboardError (PublicDashboard × Dashboard) :=
  match storePd with
  | none => Except.error PublicDashboardError.notFound
  | some pd =>
    if pd.isEnabled = false then Except.error PublicDashboardError.notFound
    else
      match storeDash with
      | none => Except.error PublicDashboardError.notFound
      | some dd => Except.ok (pd, dd)

/-- Claim C2: fetching by access token produces the identical not-found
outcome whether the public-dashboard record is absent or present but
disabled, so an anonymous caller cannot distinguish the two cases. -/
theorem findByAccessToken_indistinguishable (pd : PublicDashboard)
    (storeDash : Option Dashboard) (hdis : pd.isEnabled = false) :
    findPublicDashboardAndDashboardByAccessToken (some pd) storeDash =
      Except.error PublicDashboardError.notFound ∧
    findPublicDashboardAndDashboardByAccessToken none storeDash =
      Except.error PublicDashboardError.notFound ∧
    findPublicDashboardAndDashboardByAccessToken (some pd) storeDash =
      findPublicDashboardAndDashboardByAccessToken none storeDash := by
  unfold findPublicDashboardAndDashboardByAccessToken
  simp [hdis]

/-- Witness for claim C2 at a concrete disabled record and present backing
dashboard. -/
theorem findByAccessToken_indistinguishable_witness :
    findPublicDashboardAndDashboardByAccessToken
      (some ⟨"uid1", "mydashboard", 1, "abcdToken", false, false, ⟨"", ""⟩, 0, 0, 0, 0⟩)
      (some sampleDashboard) = Except.error PublicDashboardError.notFound ∧
    findPublicDashboardAndDashboardByAccessToken none (some sampleDashboard) =
      Except.error PublicDashboardError.notFound :=
  ⟨(findByAccessToken_indistinguishable
      ⟨"uid1", "mydashboard", 1, "abcdToken", false, false, ⟨"", ""⟩, 0, 0, 0, 0⟩
      (some sampleDashboard) rfl).1,
   (findByAccessToken_indistinguishable
      ⟨"uid1", "mydashboard", 1, "abcdToken", false, false, ⟨"", ""⟩, 0, 0, 0, 0⟩
      (some sampleDashboard) rfl).2.1⟩

/-! ## Identifier and access-token generation (claim C6) -/

/-- GenerationError is the typed failure of the bounded identifier
generation, one per identifier kind. -/
inductive GenerationError
  | failedGenerateUniqueUid
  | failedGenerateAccessToken
deriving Repr, DecidableEq

/-- uidGenerationRetries is the fixed retry budget of three attempts. -/
def uidGenerationRetries : Nat := 3

/-- Modelled from the spec: the bounded retry loop shared by uid and access
token generation.  gen yields the random candidate of each attempt and taken
is the store collision check; the result pairs the accepted candidate (none
when every attempt collided) with the number of store collision checks
performed, exactly one per generated candidate. -/
def generateUniqueIdentifier (gen : Nat → String) (taken : String → Bool) :
    Nat → Nat → Option String × Nat
  | _, 0 => (none, 0)
  | i, fuel + 1 =>
    if taken (gen i) then
      let r := generateUniqueIdentifier gen taken (i + 1) fuel
      (r.1, r.2 + 1)
    else (some (gen i), 1)

/-- Modelled from the spec: NewPublicDashboardUid generates a candidate uid,
re-checks the store, and retries up to three times before failing. -/
def newPublicDashboardUid (gen : Nat → String) (taken : String → Bool) :
    Except GenerationError String × Nat :=
  match generateUniqueIdentifier gen taken 0 uidGenerationRetries with
  | (none, c) => (Except.error GenerationError.failedGenerateUniqueUid, c)
  | (some s, c) => (Except.ok s, c)

/-- Modelled from the spec: NewPublicDashboardAccessToken is the same bounded
loop with the access-token collision check and error. -/
def newPublicDashboardAccessToken (gen : Nat → String) (taken : String → Bool) :
    Except GenerationError String × Nat :=
  match generateUniqueIdentifier gen taken 0 uidGenerationRetries with
  | (none, c) => (Except.error GenerationError.failedGenerateAccessToken, c)
  | (some s, c) => (Except.ok s, c)

/-- SaveOutcome records what the Save path did: the generation error, if any,
and whether the store save was reached. -/
structure SaveOutcome where
  err : Option GenerationError
  storeSaveCalled : Bool
deriving Repr, DecidableEq

/-- Modelled from the spec: the persistence tail of Save for a new public
dashboard record: generate the uid, then the access token, and only on
success call the store save; a generation failure is returned and nothing is
persisted. -/
def savePublicDashboardPersistence (uidGen tokenGen : Nat → String)
    (uidTaken tokenTaken : String → Bool) : SaveOutcome :=
  match (newPublicDashboardUid uidGen uidTaken).1 with
  | Except.error e => { err := some e, storeSaveCalled := false }
  | Except.ok _ =>
    match (newPublicDashboardAccessToken tokenGen tokenTaken).1 with
    | Except.error e => { err := some e, storeSaveCalled := false }
    | Except.ok _ => { err := none, storeSaveCalled := true }

lemma generateUniqueIdentifier_checks_le (gen : Nat → String) (taken : String → Bool) :
    ∀ fuel i, (generateUniqueIdentifier gen taken i fuel).2 ≤ fuel := by
  intro fuel
  induction fuel with
  | zero => intro i; simp [generateUniqueIdentifier]
  | succ n ih =>
    intro i
    by_cases h : taken (gen i) = true
    · simp only [generateUniqueIdentifier, h, if_true]
      have := ih (i + 1)
      omega
    · have hf : taken (gen i) = false := by
        cases hv : taken (gen i)
        · rfl
        · exact absurd hv h
      simp only [generateUniqueIdentifier, hf, Bool.false_eq_true, if_false]
      omega

lemma generateUniqueIdentifier_all_taken (gen : Nat → String) (taken : String → Bool)
    (h0 : taken (gen 0) = true) (h1 : taken (gen 1) = true) (h2 : taken (gen 2) = true) :
    generateUniqueIdentifier gen taken 0 3 = (none, 3) := by
  simp [generateUniqueIdentifier, h0, h1, h2]

lemma generateUniqueIdentifier_third_free (gen : Nat → String) (taken : String → Bool)
    (h0 : taken (gen 0) = true) (h1 : taken (gen 1) = true) (h2 : taken (gen 2) = false) :
    generateUniqueIdentifier gen taken 0 3 = (some (gen 2), 3) := by
  simp [generateUniqueIdentifier, h0, h1, h2]

/-- Claim C6: identifier generation checks the store once per candidate and
makes at most three attempts; when every candidate collides it fails with the
matching generation-failure error after exactly three checks (succeeding with
the third candidate when only the first two collide, and with one single
check when the first candidate is free); and a Save whose access-token
generation fails returns that failure without reaching the store save. -/
theorem newPublicDashboard_generation_spec (gen : Nat → String) (taken : String → Bool) :
    (newPublicDashboardUid gen taken).2 ≤ 3 ∧
    (newPublicDashboardAccessToken gen taken).2 ≤ 3 ∧
    (taken (gen 0) = true → taken (gen 1) = true → taken (gen 2) = true →
      newPublicDashboardUid gen taken =
        (Except.error GenerationError.failedGenerateUniqueUid, 3) ∧
      newPublicDashboardAccessToken gen taken =
        (Except.error GenerationError.failedGenerateAccessToken, 3)) ∧
    (taken (gen 0) = true → taken (gen 1) = true → taken (gen 2) = false →
      newPublicDashboardUid gen taken = (Except.ok (gen 2), 3)) ∧
    (taken (gen 0) = false → newPublicDashboardUid gen taken = (Except.ok (gen 0), 1)) ∧
    (∀ uidGen uidTaken, uidTaken (uidGen 0) = false →
      taken (gen 0) = true → taken (gen 1) = true → taken (gen 2) = true →
      savePublicDashboardPersistence uidGen gen uidTaken taken =
        { err := some GenerationError.failedGenerateAccessToken, storeSaveCalled := false }) := by
  have hle := generateUniqueIdentifier_checks_le gen taken uidGenerationRetries 0
  refine ⟨?_, ?_, ?_, ?_, ?_, ?_⟩
  · unfold newPublicDashboardUid
    rcases hgen : generateUniqueIdentifier gen taken 0 uidGenerationRetries with ⟨r, c⟩
    cases r <;> simp_all [uidGenerationRetries]
  · unfold newPublicDashboardAccessToken
    rcases hgen : generateUniqueIdentifier gen taken 0 uidGenerationRetries with ⟨r, c⟩
    cases r <;> simp_all [uidGenerationRetries]
  · intro h0 h1 h2
    have := generateUniqueIdentifier_all_taken gen taken h0 h1 h2
    constructor
    · unfold newPublicDashboardUid uidGenerationRetries
      rw [this]
    · unfold newPublicDashboardAccessToken uidGenerationRetries
      rw [this]
  · intro h0 h1 h2
    have := generateUniqueIdentifier_third_free gen taken h0 h1 h2
    unfold newPublicDashboardUid uidGenerationRetries
    rw [this]
  · intro h0
    unfold newPublicDashboardUid uidGenerationRetries
    simp [generateUniqueIdentifier, h0]
  · intro uidGen uidTaken hufree h0 h1 h2
    unfold savePublicDashboardPersistence
    have hu : newPublicDashboardUid uidGen uidTaken = (Except.ok (uidGen 0), 1) := by
      unfold newPublicDashboardUid uidGenerationRetries
      simp [generateUniqueIdentifier, hufree]
    have ht : newPublicDashboardAccessToken gen taken =
        (Except.error GenerationError.failedGenerateAccessToken, 3) := by
      unfold newPublicDashboardAccessToken uidGenerationRetries
      rw [generateUniqueIdentifier_all_taken gen taken h0 h1 h2]
    rw [hu, ht]

/-- Witness for claim C6: a generator whose candidates always collide fails
after exactly three checks and the Save path never reaches the store save. -/
theorem newPublicDashboard_generation_spec_witness :
    newPublicDashboardUid (fun _ => "dup") (fun _ => true) =
      (Except.error GenerationError.failedGenerateUniqueUid, 3) ∧
    savePublicDashboardPersistence (fun _ => "fresh") (fun _ => "dup")
      (fun _ => false) (fun _ => true) =
      { err := some GenerationError.failedGenerateAccessToken, storeSaveCalled := false } :=
  ⟨((newPublicDashboard_generation_spec (fun _ => "dup") (fun _ => true)).2.2.1
      rfl rfl rfl).1,
   (newPublicDashboard_generation_spec (fun _ => "dup") (fun _ => true)).2.2.2.2.2
      (fun _ => "fresh") (fun _ => false) rfl rfl rfl rfl⟩

/-! ## Annotation resolution (claim C8) -/

/-- AnnotationTarget is the target block of a dashboard annotation definition:
limit, match-any flag, tag list and target type (dashboard or tags). -/
structure AnnotationTarget where
  limit : Int
  matchAny : Bool
  tags : List String
  targetType : String
deriving Repr, DecidableEq

/-- DashAnnotationDef is one dashboard annotation definition: its datasource
uid, enabled flag, display name, icon color and optional target block. -/
structure DashAnnotationDef where
  datasourceUid : String
  enable : Bool
  name : String
  iconColor : String
  target : Option AnnotationTarget
deriving Repr, DecidableEq

/-- AnnotationItemDTO is one native annotation event returned by the
annotations repository. -/
structure AnnotationItemDTO where
  id : Int
  dashboardId : Int
  panelId : Int
  tags : List String
  time : Int
  timeEnd : Int
  text : String
deriving Repr, DecidableEq

/-- AnnotationEvent is the resolved event returned to the caller, attributed
to the annotation definition it matched. -/
structure AnnotationEvent where
  id : Int
  dashboardId : Int
  panelId : Int
  tags : List String
  isRegion : Bool
  text : String
  color : String
  time : Int
  timeEnd : Int
  source : DashAnnotationDef
deriving Repr, DecidableEq

/-- isTagsType holds when the definition carries a target block of type tags. -/
def isTagsType (a : DashAnnotationDef) : Bool :=
  match a.target with
  | some tgt => decide (tgt.targetType = "tags")
  | none => false

/-- matchesItem states which native events a definition produces: a tags-type
definition matches the events whose tag set intersects its tags, every other
enabled built-in definition matches all native events. -/
def matchesItem (a : DashAnnotationDef) (it : AnnotationItemDTO) : Bool :=
  match a.target with
  | some tgt =>
    if tgt.targetType = "tags" then tgt.tags.any (fun tg => decide (tg ∈ it.tags)) else true
  | none => true

/-- toEvent builds the returned event for one native event and its matching
definition: metadata comes from the definition, the panel id is zeroed for a
tags-type definition, and the region flag records whether the start and end
timestamps differ. -/
def toEvent (a : DashAnnotationDef) (it : AnnotationItemDTO) : AnnotationEvent :=
  { id := it.id
    dashboardId := it.dashboardId
    panelId := if isTagsType a then 0 else it.panelId
    tags := it.tags
    isRegion := decide (¬ it.time = it.timeEnd)
    text := it.text
    color := a.iconColor
    time := it.time
    timeEnd := it.timeEnd
    source := a }

/-- upsertEvent inserts an event keyed by its native event id: a new id is
appended; an already present id is overwritten only when the current
definition is tags-type. -/
def upsertEvent (tagsWins : Bool) (acc : List AnnotationEvent) (e : AnnotationEvent) :
    List AnnotationEvent :=
  if acc.any (fun x => decide (x.id = e.id)) then
    if tagsWins then acc.map (fun x => if x.id = e.id then e else x) else acc
  else acc ++ [e]

/-- Modelled from the spec: the annotation resolution core of FindAnnotations.
Disabled definitions and query-backed definitions (datasource other than the
built-in grafana source) are skipped; each remaining definition contributes
its matching native events; events for the same native id are deduplicated
with tags-type definitions overwriting earlier attributions.  The native
events are passed in as the repository result. -/
def resolveAnnotationEvents (defs : List DashAnnotationDef)
    (native : List AnnotationItemDTO) : List AnnotationEvent :=
  defs.foldl (fun acc a =>
    if a.enable = false ∨ ¬ a.datasourceUid = "grafana" then acc
    else
      (native.filter (matchesItem a)).foldl
        (fun acc2 it => upsertEvent (isTagsType a) acc2 (toEvent a it)) acc) []

lemma matchesItem_of_not_tags (a : DashAnnotationDef) (it : AnnotationItemDTO)
    (h : isTagsType a = false) : matchesItem a it = true := by
  unfold matchesItem
  cases ht : a.target with
  | none => rfl
  | some tgt =>
    have hnt : ¬ tgt.targetType = "tags" := by
      unfold isTagsType at h
      rw [ht] at h
      simpa using h
    simp [hnt]

/-- Claim C8: when an enabled built-in dashboard-type definition and an
enabled built-in tags-type definition both match the same native event (the
event tag set intersects the tags-type definition tags), resolution returns
exactly one event for that native id, attributed to the tags-type definition
(its color and source metadata win), with its panel id zeroed. -/
theorem resolveAnnotationEvents_tags_wins (d1 d2 : DashAnnotationDef)
    (tgt : AnnotationTarget) (it : AnnotationItemDTO)
    (h1e : d1.enable = true) (h1g : d1.datasourceUid = "grafana")
    (h1t : isTagsType d1 = false)
    (h2e : d2.enable = true) (h2g : d2.datasourceUid = "grafana")
    (h2t : d2.target = some tgt) (htags : tgt.targetType = "tags")
    (hmatch : tgt.tags.any (fun tg => decide (tg ∈ it.tags)) = true) :
    resolveAnnotationEvents [d1, d2] [it] = [toEvent d2 it] ∧
    (toEvent d2 it).panelId = 0 ∧
    (toEvent d2 it).source = d2 ∧
    (toEvent d2 it).color = d2.iconColor := by
  have htag2 : isTagsType d2 = true := by
    unfold isTagsType
    rw [h2t]
    simp [htags]
  have hm1 : matchesItem d1 it = true := matchesItem_of_not_tags d1 it h1t
  have hm2 : matchesItem d2 it = true := by
    unfold matchesItem
    rw [h2t]
    simp [htags, hmatch]
  refine ⟨?_, ?_, rfl, rfl⟩
  · unfold resolveAnnotationEvents
    simp only [List.foldl_cons, List.foldl_nil, h1e, h1g, h2e, h2g, Bool.true_eq_false,
      not_true_eq_false, or_self, if_false, List.filter_cons, List.filter_nil, hm1, hm2,
      if_true]
    simp only [upsertEvent, List.any_nil, Bool.false_eq_true, if_false, List.nil_append,
      List.foldl_cons, List.foldl_nil, List.any_cons, toEvent, decide_eq_true_eq, htag2]
    simp
  · unfold toEvent
    rw [htag2]
    rfl

/-- dashTypeDef mirrors the enabled built-in dashboard-type definition of the
repository test. -/
def dashTypeDef : DashAnnotationDef :=
  { datasourceUid := "grafana", enable := true, name := "annoName", iconColor := "red"
    target := some { limit := 100, matchAny := false, tags := [], targetType := "dashboard" } }

/-- tagsTypeDef mirrors the enabled built-in tags-type definition of the
repository test, filtering on tag1. -/
def tagsTypeDef : DashAnnotationDef :=
  { datasourceUid := "grafana", enable := true, name := "annoName", iconColor := "red"
    target := some { limit := 100, matchAny := false, tags := ["tag1"], targetType := "tags" } }

/-- nativeItem mirrors the native annotation event of the repository test,
tagged tag1 and attached to panel 1. -/
def nativeItem : AnnotationItemDTO :=
  { id := 1, dashboardId := 1, panelId := 1, tags := ["tag1"], time := 2, timeEnd := 2
    text := "text" }

/-- Witness for claim C8 at the repository test fixture: the resolved list is
the single event attributed to the tags-type definition with panel id zero. -/
theorem resolveAnnotationEvents_tags_wins_witness :
    resolveAnnotationEvents [dashTypeDef, tagsTypeDef] [nativeItem] =
      [toEvent tagsTypeDef nativeItem] ∧
    (toEvent tagsTypeDef nativeItem).panelId = 0 :=
  ⟨(resolveAnnotationEvents_tags_wins dashTypeDef tagsTypeDef
      { limit := 100, matchAny := false, tags := ["tag1"], targetType := "tags" } nativeItem
      rfl rfl (by decide) rfl rfl rfl rfl (by decide)).1,
   (resolveAnnotationEvents_tags_wins dashTypeDef tagsTypeDef
      { limit := 100, matchAny := false, tags := ["tag1"], targetType := "tags" } nativeItem
      rfl rfl (by decide) rfl rfl rfl rfl (by decide)).2.1⟩
